import Mathlib

/-!
Verification of the Discovery Aggregation & Opportunity Scoring Engine
(backend/app/services: scorer.py, gumroad_scout.py, discovery_aggregator.py,
trends_scout.py) against its natural-language specification.

The Python services are shallowly embedded as executable Lean definitions.
Modelling conventions, used throughout:
- Python ints are `Int` / `Nat`; Python floats that only ever hold exact
  small values (ratings, relevance scores, averages) are `Rat`;
  every score contribution in the scorer is an integer constant, so the
  score fields are modelled as `Int` (Python `round(x, 1)` is the identity
  on integer-valued floats).
- Python `None` is `Option.none`; truthiness of a string is non-emptiness.
- CPython set iteration order is unspecified; `list(set(xs))` is modelled
  as first-occurrence deduplication (no claim depends on that order).
- `list.sort(reverse=True)` and `sorted(..., reverse=True)` are stable
  descending sorts, modelled by `sortKeyDesc` below.
-/

namespace HeadlessStudio

/-- Lowercase a string character by character (Python str.lower on ASCII). -/
def pyLower (s : String) : String := String.mk (s.data.map Char.toLower)

/-- Python substring test `needle in hay`. -/
def strContains (hay needle : String) : Bool :=
  (List.range (hay.data.length + 1)).any (fun i => needle.data.isPrefixOf (hay.data.drop i))

/-- Maximal runs of non-whitespace characters. -/
def nonWsRuns : List Char → List String
  | [] => []
  | c :: cs =>
    let rest := nonWsRuns cs
    if c.isWhitespace then rest
    else
      match cs, rest with
      | c2 :: _, w :: ws => if c2.isWhitespace then String.mk [c] :: rest
                            else String.mk (c :: w.data) :: ws
      | _, _ => [String.mk [c]]

/-- Python str.split() with no argument: split on whitespace runs, dropping empties. -/
def splitWs (s : String) : List String := nonWsRuns s.data

/-- Maximal runs of ASCII alphabetic characters, as used by the regex
findall of consecutive letters in the scorer title and keyword helpers. -/
def alphaRuns : List Char → List String
  | [] => []
  | c :: cs =>
    let rest := alphaRuns cs
    if c.isAlpha then
      match cs, rest with
      | c2 :: _, w :: ws => if c2.isAlpha then String.mk (c :: w.data) :: ws
                            else String.mk [c] :: rest
      | _, _ => [String.mk [c]]
    else rest

/-- Words of a string as extracted by the scorer: alphabetic runs of the
lowercased text. -/
def alphaWords (s : String) : List String := alphaRuns (pyLower s).data

/-- Helper for `pyTitle`: the Boolean tracks whether the previous character
was alphabetic. -/
def pyTitleAux : Bool → List Char → List Char
  | _, [] => []
  | prevAlpha, c :: cs =>
    if c.isAlpha then
      (if prevAlpha then c.toLower else c.toUpper) :: pyTitleAux true cs
    else c :: pyTitleAux false cs

/-- Python str.title() on ASCII text: uppercase each letter that follows a
non-letter, lowercase the other letters. -/
def pyTitle (s : String) : String := String.mk (pyTitleAux false s.data)

/-- Python int() on a rational value: truncation toward zero. -/
def ratTrunc (q : ℚ) : ℤ := if 0 ≤ q then ⌊q⌋ else -⌊-q⌋

/-- Round-half-to-even to the nearest integer (Python round on exact values). -/
def roundHalfEven (q : ℚ) : ℤ :=
  let f := ⌊q⌋
  let r := q - (f : ℚ)
  if r < 1/2 then f else if 1/2 < r then f + 1 else if f % 2 = 0 then f else f + 1

/-- Python round(x, 2) on an exact rational value. -/
def round2 (q : ℚ) : ℚ := (roundHalfEven (q * 100) : ℚ) / 100

/-- First-occurrence deduplication, the iteration order of a Python dict
whose keys were inserted while scanning a list. -/
def firstOccur [DecidableEq α] (l : List α) : List α :=
  l.foldl (fun acc x => if x ∈ acc then acc else acc ++ [x]) []

/-- Insert into a list sorted descending by `key`, before any element of
equal key (the insertion step of a stable descending sort). -/
def insertKeyDesc (key : α → ℤ) (a : α) : List α → List α
  | [] => [a]
  | b :: bs => if key b ≤ key a then a :: b :: bs else b :: insertKeyDesc key a bs

/-- Stable descending sort by an integer key, the model of Python
`sorted(..., key=..., reverse=True)` and `list.sort(..., reverse=True)`. -/
def sortKeyDesc (key : α → ℤ) (l : List α) : List α := l.foldr (insertKeyDesc key) []

/-- Python max over a non-empty sequence by a key: the first element whose
key is maximal (later elements replace only on strictly greater key). -/
def argmaxFirst (key : α → ℤ) (a : α) (l : List α) : α :=
  l.foldl (fun b x => if key b < key x then x else b) a

theorem mem_insertKeyDesc (key : α → ℤ) (a x : α) (l : List α) :
    x ∈ insertKeyDesc key a l ↔ x = a ∨ x ∈ l := by
  induction l with
  | nil => simp [insertKeyDesc]
  | cons b bs ih =>
    simp only [insertKeyDesc]
    split
    · simp [List.mem_cons]
    · simp [List.mem_cons, ih]
      tauto

theorem mem_sortKeyDesc (key : α → ℤ) (x : α) (l : List α) :
    x ∈ sortKeyDesc key l ↔ x ∈ l := by
  induction l with
  | nil => simp [sortKeyDesc]
  | cons b bs ih =>
    simp only [sortKeyDesc, List.foldr_cons] at *
    rw [mem_insertKeyDesc, ih, List.mem_cons]

theorem pairwise_insertKeyDesc (key : α → ℤ) (a : α) (l : List α)
    (h : l.Pairwise (fun u v => key v ≤ key u)) :
    (insertKeyDesc key a l).Pairwise (fun u v => key v ≤ key u) := by
  induction l with
  | nil => simp [insertKeyDesc]
  | cons b bs ih =>
    simp only [insertKeyDesc]
    rcases List.pairwise_cons.mp h with ⟨hb, hbs⟩
    split
    · refine List.pairwise_cons.mpr ⟨?_, h⟩
      intro x hx
      rcases List.mem_cons.mp hx with rfl | hx
      · assumption
      · exact le_trans (hb x hx) (by assumption)
    · refine List.pairwise_cons.mpr ⟨?_, ih hbs⟩
      intro x hx
      rcases (mem_insertKeyDesc key a x bs).mp hx with rfl | hx
      · omega
      · exact hb x hx

theorem pairwise_sortKeyDesc (key : α → ℤ) (l : List α) :
    (sortKeyDesc key l).Pairwise (fun u v => key v ≤ key u) := by
  induction l with
  | nil => simp [sortKeyDesc]
  | cons b bs ih => exact pairwise_insertKeyDesc key b _ ih

/-- A signal discovered from Reddit (models/signals.py RedditSignal).
created_utc is a Unix timestamp in seconds. -/
structure RedditSignal where
  subreddit : String
  post_id : String
  post_title : String
  post_url : String
  post_score : ℤ := 0
  comment_count : ℤ := 0
  created_utc : ℤ := 0
  pain_points : List String := []
  buying_signals : List String := []
  questions : List String := []
  relevance_score : ℚ := 0
deriving DecidableEq, Repr

/-- A signal discovered from X/Twitter via Grok (x_scout.py XSignal).
The Python class has no signal_type attribute, so the hasattr branch of
the scorer that reads signal_type never fires on these objects. -/
structure XSignal where
  tweet_id : String
  text : String
  author_username : String
  author_followers : Option ℤ := none
  engagement_score : ℤ := 0
  created_at : ℤ := 0
  url : String
  relevance_score : ℚ := 0
  pain_point_type : Option String := none
  pain_points : List String := []
  buying_signals : List String := []
  keywords : List String := []
deriving DecidableEq, Repr

/-- A product found on Gumroad (gumroad_scout.py GumroadProduct). -/
structure GumroadProduct where
  title : String
  price_cents : Option ℤ := none
  price_display : Option String := none
  seller_name : Option String := none
  rating : Option ℚ := none
  review_count : Option ℤ := none
  url : String
  thumbnail_url : Option String := none
deriving DecidableEq, Repr

/-- Competition analysis for a keyword (gumroad_scout.py CompetitionData).
The products list and scraped_at timestamp are carried along unchanged. -/
structure CompetitionData where
  keyword : String
  product_count : ℕ
  products : List GumroadProduct := []
  price_range_cents : Option (ℤ × ℤ) := none
  avg_price_cents : Option ℤ := none
  avg_rating : Option ℚ := none
  total_reviews : ℤ := 0
  competition_level : String
  competition_penalty : ℤ
deriving DecidableEq, Repr

/-- The truthiness test `p.review_count and p.review_count > 0` used when
collecting ratings: review_count is present, non-zero, and positive. -/
def hasReviews (p : GumroadProduct) : Bool :=
  match p.review_count with
  | none => false
  | some n => n ≠ 0 && 0 < n

/-- Ratings counted toward the average: products with a rating and actual
reviews (gumroad_scout.py, rating statistics). -/
def reviewedRatings (products : List GumroadProduct) : List ℚ :=
  products.filterMap (fun p =>
    match p.rating with
    | some r => if hasReviews p then some r else none
    | none => none)

/-- The avg_rating computed by the analyzer: mean of reviewedRatings, or
None when no product has actual reviews. -/
def avgRatingOf (products : List GumroadProduct) : Option ℚ :=
  match reviewedRatings products with
  | [] => none
  | rs => some (rs.sum / (rs.length : ℚ))

/-- The if/elif chain of _analyze_competition that determines
(competition_level, competition_penalty) from the product count and the
average rating. The Python truthiness test `avg_rating and avg_rating > 4.5`
in the saturated branch is the conjunction r ≠ 0 and r > 4.5 of the rating
when it is present. -/
def competitionLevelPenalty (count : ℕ) (avg_rating : Option ℚ) : String × ℤ :=
  if count = 0 then ("none", -10)
  else if (avg_rating.any (fun r => decide (r < 3.5))) && decide (0 < count) then
    ("low_quality", -3)
  else if 8 ≤ count || (4 ≤ count && avg_rating.any (fun r => r ≠ 0 && decide (4.5 < r))) then
    ("saturated", -20)
  else if 4 ≤ count then ("high", -10)
  else ("validated", -5)

/-- GumroadCompetitionScout._analyze_competition: classify the competition
level of a keyword from its marketplace listings and assign the penalty. -/
def analyzeCompetition (keyword : String) (products : List GumroadProduct) :
    CompetitionData :=
  let count := products.length
  let prices := products.filterMap (fun p => p.price_cents)
  let price_range : Option (ℤ × ℤ) :=
    match prices with
    | [] => none
    | q :: qs => some (qs.foldl min q, qs.foldl max q)
  let avg_price : Option ℤ :=
    match prices with
    | [] => none
    | _ => some (ratTrunc ((prices.map (fun z => (z : ℚ))).sum / (prices.length : ℚ)))
  let avg_rating := avgRatingOf products
  let total_reviews := (products.map (fun p => p.review_count.getD 0)).sum
  let lp := competitionLevelPenalty count avg_rating
  { keyword := keyword
    product_count := count
    products := products
    price_range_cents := price_range
    avg_price_cents := avg_price
    avg_rating := avg_rating
    total_reviews := total_reviews
    competition_level := lp.1
    competition_penalty := lp.2 }

/-- Modelled from the spec (section 4.2): the five classification rules in
the stated priority order, first match wins, as a function of product
count and avg_rating; used only to compare against analyzeCompetition. -/
def specCompetitionRule (count : ℕ) (avg : Option ℚ) : String × ℤ :=
  if count = 0 then ("none", -10)
  else if avg.any (fun r => decide (r < 3.5)) then ("low_quality", -3)
  else if 8 ≤ count ∨ (4 ≤ count ∧ avg.any (fun r => decide (4.5 < r))) then ("saturated", -20)
  else if 4 ≤ count then ("high", -10)
  else ("validated", -5)

/-- Modelled from the spec (section 4.2): avg_rating is computed only over
listings with review_count > 0 (their rating values); null when no listing
has reviews. -/
def specAvgRating (products : List GumroadProduct) : Option ℚ :=
  match products.filterMap (fun p =>
      if 0 < p.review_count.getD 0 then p.rating else none) with
  | [] => none
  | rs => some (rs.sum / (rs.length : ℚ))

/-- Association-list lookup, the model of Python dict.get on the literal
tables of scorer.py. -/
def lookupAssoc (l : List (String × α)) (k : String) : Option α :=
  (l.find? (fun p => p.1 = k)).map (fun p => p.2)

/-- A price band of scorer.py PRICE_RANGES. -/
structure PriceRange where
  price_min : ℤ
  price_max : ℤ
  price_default : ℤ
deriving DecidableEq, Repr

/-- scorer.py PRICE_RANGES: price bands in cents by product type. -/
def PRICE_RANGES : List (String × PriceRange) :=
  [("prompt_pack", ⟨500, 1500, 900⟩),
   ("guide", ⟨900, 2900, 1900⟩),
   ("template_pack", ⟨700, 1900, 1200⟩),
   ("checklist", ⟨500, 1200, 700⟩),
   ("roadmap", ⟨900, 2500, 1500⟩)]

/-- scorer.py PRODUCT_TYPE_KEYWORDS: keyword tables for product-type
inference, in dict insertion order. -/
def PRODUCT_TYPE_KEYWORDS : List (String × List String) :=
  [("prompt_pack", ["prompt", "chatgpt", "gpt", "ai prompt", "llm", "claude"]),
   ("guide", ["guide", "tutorial", "how to", "learn", "course", "step by step"]),
   ("template_pack", ["template", "notion", "spreadsheet", "worksheet", "doc"]),
   ("checklist", ["checklist", "framework", "process", "system", "sop", "routine"]),
   ("roadmap", ["roadmap", "plan", "strategy", "path", "journey", "career"])]

/-- OpportunityScorer._suggest_price: price from the product-type band,
stepped up as the score crosses 40, 60 and 80. The 60 tier is
int((max + default) / 2), a float division truncated by int(). -/
def suggestPrice (product_type : String) (score : ℤ) : ℤ :=
  let pr := (lookupAssoc PRICE_RANGES product_type).getD ⟨900, 2900, 1900⟩
  if 80 ≤ score then pr.price_max
  else if 60 ≤ score then ratTrunc (((pr.price_max + pr.price_default : ℤ) : ℚ) / 2)
  else if 40 ≤ score then pr.price_default
  else pr.price_min

/-- The text a Reddit signal contributes to product-type inference:
lowercased post title and questions. -/
def redditSignalText (s : RedditSignal) : String :=
  pyLower (s.post_title ++ " " ++ String.intercalate " " s.questions)

/-- Keyword-table hits for one candidate type: X signals count 2 per
keyword found in their text, Reddit signals count 1
(OpportunityScorer._infer_product_type_unified inner loops). -/
def typeScoreUnified (xs : List XSignal) (rs : List RedditSignal) (kws : List String) : ℤ :=
  (xs.map (fun s => 2 * ((kws.filter (fun k => strContains (pyLower s.text) k)).length : ℤ))).sum
  + (rs.map (fun s => ((kws.filter (fun k => strContains (redditSignalText s) k)).length : ℤ))).sum

/-- OpportunityScorer._infer_product_type_unified: argmax over the keyword
table in dict order (Python max is first-wins), defaulting to guide when
no keyword hit at all. -/
def inferProductTypeUnified (xs : List XSignal) (rs : List RedditSignal) : String :=
  match PRODUCT_TYPE_KEYWORDS with
  | [] => "guide"
  | p :: ps =>
    let key := fun (q : String × List String) => typeScoreUnified xs rs q.2
    let best := argmaxFirst key p ps
    if 0 < key best then best.1 else "guide"

/-- The stop-word set of _generate_title and _generate_title_unified. -/
def stopWordsTitle : List String :=
  ["the", "a", "an", "is", "are", "for", "to", "of", "and", "or",
   "in", "on", "at", "by", "with", "how", "what", "why", "when",
   "i", "you", "my", "your", "this", "that", "it", "do", "does"]

/-- The word-occurrence stream of _generate_title_unified: words of X
signal texts with weight 2 first, then words of Reddit post titles with
weight 1; stop words and words of length at most 3 are skipped. -/
def titleWordOccs (xs : List XSignal) (rs : List RedditSignal) : List (String × ℤ) :=
  (xs.flatMap (fun s =>
    ((alphaWords s.text).filter (fun w => w ∉ stopWordsTitle ∧ 3 < w.length)).map
      (fun w => (w, (2 : ℤ)))))
  ++ (rs.flatMap (fun s =>
    ((alphaWords s.post_title).filter (fun w => w ∉ stopWordsTitle ∧ 3 < w.length)).map
      (fun w => (w, (1 : ℤ)))))

/-- Total weight a word accumulated in the words dict. -/
def weightOf (occs : List (String × ℤ)) (w : String) : ℤ :=
  ((occs.filter (fun p => p.1 = w)).map (fun p => p.2)).sum

/-- The topic string built from the top-3 weighted words (title-cased and
space-joined), or the placeholder when no word qualified. -/
def wordTopic (xs : List XSignal) (rs : List RedditSignal) : String :=
  let occs := titleWordOccs xs rs
  let tops := (sortKeyDesc (weightOf occs) (firstOccur (occs.map (fun p => p.1)))).take 3
  if tops = [] then "Digital Product" else String.intercalate " " (tops.map pyTitle)

/-- OpportunityScorer._generate_title_unified: a supplied (truthy) primary
keyword overrides word-frequency extraction; the topic is interpolated
into the per-product-type template. -/
def generateTitleUnified (xs : List XSignal) (rs : List RedditSignal)
    (product_type : String) (primary_keyword : Option String) : String :=
  let topic := match primary_keyword with
    | some k => if k ≠ "" then pyTitle k else wordTopic xs rs
    | none => wordTopic xs rs
  if product_type = "prompt_pack" then topic ++ " Prompt Pack"
  else if product_type = "guide" then "The Complete " ++ topic ++ " Guide"
  else if product_type = "template_pack" then topic ++ " Template Bundle"
  else if product_type = "checklist" then topic ++ " Checklist & Framework"
  else if product_type = "roadmap" then topic ++ " Roadmap"
  else topic ++ " Resource Pack"

/-- All pain points in collection order: X signals first, then Reddit
(every XSignal has the pain_points attribute, so the hasattr guard always
passes). -/
def allPainPointsUnified (xs : List XSignal) (rs : List RedditSignal) : List String :=
  (xs.map (fun s => s.pain_points)).flatten ++ (rs.map (fun s => s.pain_points)).flatten

/-- All buying signals collected by score_unified_signals; the collection
loop reads buying_signals from Reddit signals only. -/
def allBuyingSignalsUnified (rs : List RedditSignal) : List String :=
  (rs.map (fun s => s.buying_signals)).flatten

/-- OpportunityScorer._generate_description_unified. CPython iterates
list(set(...)) in unspecified order; first-occurrence order is one
admissible refinement and nothing proved below depends on it. -/
def generateDescriptionUnified (xs : List XSignal) (rs : List RedditSignal) : String :=
  let pains := allPainPointsUnified xs rs
  if pains = [] then "A comprehensive resource based on real user needs."
  else "Helps with: " ++ String.intercalate ", " ((firstOccur pains).take 3)

/-- The subreddit-to-audience table of _identify_audience_unified. -/
def audienceMapUnified : List (String × String) :=
  [("Entrepreneur", "entrepreneurs"), ("smallbusiness", "small business owners"),
   ("freelance", "freelancers"), ("ChatGPT", "AI users"),
   ("productivity", "productivity enthusiasts"),
   ("personalfinance", "personal finance enthusiasts")]

/-- OpportunityScorer._identify_audience_unified (set iteration order
modelled as first occurrence, as above). -/
def identifyAudienceUnified (xs : List XSignal) (rs : List RedditSignal) : String :=
  let subs := firstOccur (rs.map (fun s => s.subreddit))
  let audiences := subs.filterMap (fun s => lookupAssoc audienceMapUnified s)
  if audiences = [] ∧ xs ≠ [] then "professionals seeking productivity tools"
  else if audiences ≠ [] then String.intercalate ", " (audiences.take 3)
  else "digital product buyers"

/-- The stop-word set of _extract_keyword (a shorter list than the title
stop words). -/
def stopWordsKeyword : List String :=
  ["the", "a", "an", "is", "are", "for", "to", "of", "and", "or",
   "in", "on", "at", "by", "with", "i", "you", "my", "your"]

/-- OpportunityScorer._extract_keyword: most frequent qualifying word of
the Reddit post titles (first-wins on ties), or the placeholder. -/
def extractKeyword (rs : List RedditSignal) : String :=
  let occs := (rs.map (fun s =>
    (alphaWords s.post_title).filter (fun w => w ∉ stopWordsKeyword ∧ 3 < w.length))).flatten
  match firstOccur occs with
  | [] => "digital product"
  | k :: ks => argmaxFirst (fun w => (occs.count w : ℤ)) k ks

/-- X-signal demand tier of score_unified_signals (primary source,
up to 30 points, by signal count). -/
def xDemandTier (n : ℕ) : ℤ :=
  if 20 ≤ n then 30 else if 10 ≤ n then 22 else if 5 ≤ n then 15
  else if 2 ≤ n then 8 else 0

/-- Weighted Reddit engagement used by the demand calculation:
post_score + 2 * comment_count summed over the signals. -/
def redditEngagement (rs : List RedditSignal) : ℤ :=
  (rs.map (fun s => s.post_score + 2 * s.comment_count)).sum

/-- Reddit demand tier of score_unified_signals (supplementary source,
up to 10 points, by count and weighted engagement). -/
def redditDemandTier (n : ℕ) (eng : ℤ) : ℤ :=
  if 10 ≤ n ∧ 500 ≤ eng then 10 else if 5 ≤ n ∧ 200 ≤ eng then 7
  else if 2 ≤ n then 4 else 0

/-- Trend demand tier of score_unified_signals (up to 10 points). -/
def trendTier (t : ℤ) : ℤ :=
  if 70 ≤ t then 10 else if 50 ≤ t then 7 else if 30 ≤ t then 4 else 0

/-- Demand score of score_unified_signals: tier sums capped at 50. The
x and reddit tiers sit inside truthiness guards on the signal lists in
the source; an empty list contributes zero either way. -/
def demandScoreUnified (xs : List XSignal) (rs : List RedditSignal) (trend : ℤ) : ℤ :=
  min ((if xs ≠ [] then xDemandTier xs.length else 0)
      + (if rs ≠ [] then redditDemandTier rs.length (redditEngagement rs) else 0)
      + trendTier trend) 50

/-- Total X pain points counted by the intent loop. Every XSignal has
pain_points, so that hasattr branch always adds; no XSignal has a
signal_type attribute, so the signal_type branch never adds. -/
def xPainCount (xs : List XSignal) : ℕ := (xs.map (fun s => s.pain_points.length)).sum

/-- Total X buying signals counted by the intent loop (same hasattr
remarks as for xPainCount). -/
def xBuyingCount (xs : List XSignal) : ℕ := (xs.map (fun s => s.buying_signals.length)).sum

/-- X intent contribution: buying-signal tier (up to 15) plus pain-point
tier (up to 10). -/
def xIntent (xs : List XSignal) : ℤ :=
  (if 10 ≤ xBuyingCount xs then 15 else if 5 ≤ xBuyingCount xs then 10
   else if 2 ≤ xBuyingCount xs then 5 else 0)
  + (if 10 ≤ xPainCount xs then 10 else if 5 ≤ xPainCount xs then 7
     else if 2 ≤ xPainCount xs then 4 else 0)

/-- Reddit intent contribution: buying tier (5 or 3) plus pain tier. -/
def redditIntent (rs : List RedditSignal) : ℤ :=
  let buying := (rs.map (fun s => s.buying_signals.length)).sum
  let pain := (rs.map (fun s => s.pain_points.length)).sum
  (if 5 ≤ buying then 5 else if 2 ≤ buying then 3 else 0)
  + (if 5 ≤ pain then 5 else if 2 ≤ pain then 3 else 0)

/-- Intent score of score_unified_signals: contributions capped at 40. -/
def intentScoreUnified (xs : List XSignal) (rs : List RedditSignal) : ℤ :=
  min ((if xs ≠ [] then xIntent xs else 0) + (if rs ≠ [] then redditIntent rs else 0)) 40

/-- Evidence URLs of score_unified_signals: the non-empty urls of the
first five X signals followed by the non-empty post_urls of the first
three Reddit signals. -/
def evidenceUrlsUnified (xs : List XSignal) (rs : List RedditSignal) : List String :=
  ((xs.take 5).filterMap (fun s => if s.url ≠ "" then some s.url else none))
  ++ ((rs.take 3).filterMap (fun s => if s.post_url ≠ "" then some s.post_url else none))

/-- Top-5 items of a list by occurrence count, iterating distinct items in
first-occurrence (dict insertion) order with a stable descending sort. -/
def topByCount (l : List String) : List String :=
  (sortKeyDesc (fun w => (l.count w : ℤ)) (firstOccur l)).take 5

/-- The signal_summary dict of score_unified_signals. -/
structure SignalSummary where
  total_signals : ℕ
  avg_relevance : ℚ
  total_engagement : ℤ
  subreddits : List String
  top_pain_points : List String
  top_buying_signals : List String
deriving DecidableEq, Repr

/-- The dict returned by score_unified_signals. All score values are
integer-valued floats in the source (every tier constant and penalty is an
integer), so round(x, 1) is the identity on them and they are carried as
integers. -/
structure ScoreResult where
  title : String
  description : String
  target_audience : String
  product_type : String
  opportunity_score : ℤ
  demand_score : ℤ
  intent_score : ℤ
  competition_penalty : ℤ
  confidence : String
  primary_keyword : String
  x_mentions : ℕ
  reddit_mentions : ℕ
  evidence_urls : List String
  suggested_price_cents : ℤ
  signal_summary : SignalSummary
deriving DecidableEq, Repr

/-- Python truthy `a or b` on an optional string. -/
def pyOrStr (a : Option String) (b : String) : String :=
  match a with
  | some k => if k ≠ "" then k else b
  | none => b

/-- OpportunityScorer.score_unified_signals: score signals from X
(primary), Reddit (supplementary) and Trends, with a competition penalty
from Gumroad data. The primary_keyword of the returned dict reproduces
the Python conditional-expression grouping
(primary_keyword or extract(reddit)) if reddit_signals else "digital product". -/
def scoreUnifiedSignals (x_signals : List XSignal) (reddit_signals : List RedditSignal)
    (trend_score : ℤ) (primary_keyword : Option String)
    (competition_data : Option CompetitionData) : ScoreResult :=
  if x_signals = [] ∧ reddit_signals = [] then
    { title := pyOrStr primary_keyword "Unknown Opportunity"
      description := "No signals found"
      target_audience := "unknown"
      product_type := "guide"
      opportunity_score := 0
      demand_score := 0
      intent_score := 0
      competition_penalty := 0
      confidence := "low"
      primary_keyword := pyOrStr primary_keyword "unknown"
      x_mentions := 0
      reddit_mentions := 0
      evidence_urls := []
      suggested_price_cents := 900
      signal_summary :=
        { total_signals := 0, avg_relevance := 0, total_engagement := 0,
          subreddits := [], top_pain_points := [], top_buying_signals := [] } }
  else
    let demand_score := demandScoreUnified x_signals reddit_signals trend_score
    let intent_score := intentScoreUnified x_signals reddit_signals
    let competition_penalty : ℤ :=
      match competition_data with
      | some c => c.competition_penalty
      | none => -5
    let total_score := max 0 (min (demand_score + intent_score + competition_penalty) 100)
    let total_signals := x_signals.length + reddit_signals.length
    let confidence :=
      if 15 ≤ total_signals ∧ 70 ≤ total_score then "high"
      else if 7 ≤ total_signals ∧ 50 ≤ total_score then "medium"
      else "low"
    let product_type := inferProductTypeUnified x_signals reddit_signals
    { title := generateTitleUnified x_signals reddit_signals product_type primary_keyword
      description := generateDescriptionUnified x_signals reddit_signals
      target_audience := identifyAudienceUnified x_signals reddit_signals
      product_type := product_type
      opportunity_score := total_score
      demand_score := demand_score
      intent_score := intent_score
      competition_penalty := competition_penalty
      confidence := confidence
      primary_keyword :=
        if reddit_signals ≠ [] then pyOrStr primary_keyword (extractKeyword reddit_signals)
        else "digital product"
      x_mentions := x_signals.length
      reddit_mentions := reddit_signals.length
      evidence_urls := evidenceUrlsUnified x_signals reddit_signals
      suggested_price_cents := suggestPrice product_type total_score
      signal_summary :=
        { total_signals := total_signals
          avg_relevance :=
            if reddit_signals ≠ [] then
              round2 (((reddit_signals.map (fun s => s.relevance_score)).sum)
                / (reddit_signals.length : ℚ))
            else 0
          total_engagement :=
            if reddit_signals ≠ [] then
              (reddit_signals.map (fun s => s.post_score + s.comment_count)).sum
            else 0
          subreddits := firstOccur (reddit_signals.map (fun s => s.subreddit))
          top_pain_points := topByCount (allPainPointsUnified x_signals reddit_signals)
          top_buying_signals := topByCount (allBuyingSignalsUnified reddit_signals) } }

/-- discovery_aggregator.py DiscoveryConfig (defaults as in the source). -/
structure DiscoveryConfig where
  topics : List String := ["chatgpt prompts", "ai tools", "productivity"]
  time_filter : String := "week"
  min_score : ℤ := 50
  max_opportunities : ℕ := 10
  check_duplicates : Bool := true
  duplicate_lookback_days : ℤ := 90
  use_trends : Bool := true
deriving DecidableEq, Repr

/-- discovery_aggregator.py DiscoveredOpportunity. The raw-signal dumps
are carried as the signal values themselves. -/
structure DiscoveredOpportunity where
  title : String
  description : String
  target_audience : String
  product_type : String
  opportunity_score : ℤ
  demand_score : ℤ
  intent_score : ℤ
  competition_penalty : ℤ
  confidence : String
  primary_keyword : String
  suggested_price_cents : ℤ
  x_mentions : ℕ := 0
  reddit_mentions : ℕ := 0
  trend_score : ℤ := 0
  evidence_urls : List String := []
  top_pain_points : List String := []
  top_buying_signals : List String := []
  x_signals : List XSignal := []
  reddit_signals : List RedditSignal := []
deriving DecidableEq, Repr

/-- discovery_aggregator.py DiscoveryResult (run_at, a wall-clock
timestamp, is omitted; no property below concerns it). -/
structure DiscoveryResult where
  success : Bool
  topics_searched : List String
  opportunities : List DiscoveredOpportunity
  total_x_signals : ℕ := 0
  total_reddit_signals : ℕ := 0
  duplicates_filtered : ℕ := 0
  below_threshold_filtered : ℕ := 0
  errors : List String := []
deriving DecidableEq, Repr

/-- The external collaborators of a discovery run, by their I/O contracts
(spec section 6): each adapter either is unconfigured, raises (the
Except.error case, carrying the exception text), or returns its data.
isDup is the outcome of the already fail-open _is_duplicate check. -/
structure DiscoveryEnv where
  xConfigured : Bool
  xSearch : Except String (List XSignal)
  redditConfigured : Bool
  redditSearch : String → Except String (List RedditSignal)
  trendsAvailable : Bool
  trendLookup : String → Except String ℤ
  compLookup : String → Except String CompetitionData
  isDup : String → String → Bool

/-- The Reddit loop of run_discovery: per-topic searches whose results are
extended into one list; an exception aborts the remaining topics but keeps
the signals already collected, and is recorded as a warning string. -/
def redditCollect (f : String → Except String (List RedditSignal)) :
    List String → List RedditSignal × List String
  | [] => ([], [])
  | t :: ts =>
    match f t with
    | Except.error e => ([], ["Reddit search skipped: " ++ e])
    | Except.ok sigs =>
      let rest := redditCollect f ts
      (sigs ++ rest.1, rest.2)

/-- The per-topic body of run_discovery: associate signals to the topic
(falling back to the full X pool when no keyword matches), skip the topic
when both pools are empty, enrich best-effort with trend and competition
data, score, and build the DiscoveredOpportunity. -/
def topicOpportunity (env : DiscoveryEnv) (config : DiscoveryConfig)
    (allX : List XSignal) (allReddit : List RedditSignal) (topic : String) :
    Option DiscoveredOpportunity :=
  let topicKeywords := ((splitWs topic).filter (fun kw => 2 < kw.length)).map pyLower
  let topicX0 := allX.filter
    (fun s => topicKeywords.any (fun kw => strContains (pyLower s.text) kw))
  let topicX := if topicX0 = [] then allX else topicX0
  let topicReddit := allReddit.filter (fun s =>
    strContains (pyLower s.post_title) (pyLower topic)
    || topicKeywords.any (fun kw => strContains (pyLower s.post_title) kw))
  if topicX = [] ∧ topicReddit = [] then none
  else
    let trend : ℤ :=
      if config.use_trends && env.trendsAvailable then
        match env.trendLookup topic with
        | Except.ok t => t
        | Except.error _ => 0
      else 0
    let comp : Option CompetitionData :=
      match env.compLookup topic with
      | Except.ok c => some c
      | Except.error _ => none
    let r := scoreUnifiedSignals topicX topicReddit trend (some topic) comp
    some { title := r.title
           description := r.description
           target_audience := r.target_audience
           product_type := r.product_type
           opportunity_score := r.opportunity_score
           demand_score := r.demand_score
           intent_score := r.intent_score
           competition_penalty := r.competition_penalty
           confidence := r.confidence
           primary_keyword := r.primary_keyword
           suggested_price_cents := r.suggested_price_cents
           x_mentions := topicX.length
           reddit_mentions := topicReddit.length
           trend_score := trend
           evidence_urls := r.evidence_urls
           top_pain_points := r.signal_summary.top_pain_points
           top_buying_signals := r.signal_summary.top_buying_signals
           x_signals := topicX.take 20
           reddit_signals := topicReddit.take 10 }

/-- Step 1 of run_discovery: the X/Grok search, with its signals and its
contribution to the errors list (unconfigured or raising). -/
def discoveryXFetch (env : DiscoveryEnv) : List XSignal × List String :=
  if env.xConfigured then
    match env.xSearch with
    | Except.ok sigs => (sigs, [])
    | Except.error e => ([], ["X search error: " ++ e])
  else ([], ["X/Grok not configured (XAI_API_KEY missing)"])

/-- Step 2 of run_discovery: the Reddit search over the first three
topics. An unconfigured Reddit scout is skipped silently: it contributes
no error entry, only a log line. -/
def discoveryRedditFetch (env : DiscoveryEnv) (config : DiscoveryConfig) :
    List RedditSignal × List String :=
  if env.redditConfigured then redditCollect env.redditSearch (config.topics.take 3)
  else ([], [])

/-- Steps 3 to 5 of run_discovery: one scored opportunity per topic,
skipping topics with no associated signals. -/
def scoredOpportunities (env : DiscoveryEnv) (config : DiscoveryConfig) :
    List DiscoveredOpportunity :=
  config.topics.filterMap
    (topicOpportunity env config (discoveryXFetch env).1 (discoveryRedditFetch env config).1)

/-- DiscoveryAggregator.run_discovery: gather X signals (primary) and
Reddit signals (first three topics), build one scored opportunity per
topic, drop the ones below min_score, drop duplicates, sort by score
descending (stable) and truncate to max_opportunities. -/
def runDiscovery (env : DiscoveryEnv) (config : DiscoveryConfig) : DiscoveryResult :=
  let xRes := discoveryXFetch env
  let redditRes := discoveryRedditFetch env config
  let errors := xRes.2 ++ redditRes.2
  let opportunities0 := scoredOpportunities env config
  let below := (opportunities0.filter (fun o => o.opportunity_score < config.min_score)).length
  let opportunities1 := opportunities0.filter (fun o => config.min_score ≤ o.opportunity_score)
  let dupPair : List DiscoveredOpportunity × ℕ :=
    if config.check_duplicates then
      (opportunities1.filter (fun o => ¬ env.isDup o.primary_keyword o.title),
       (opportunities1.filter (fun o => env.isDup o.primary_keyword o.title)).length)
    else (opportunities1, 0)
  let final := (sortKeyDesc (fun o => o.opportunity_score) dupPair.1).take config.max_opportunities
  { success := decide (0 < final.length) || decide (errors.length = 0)
    topics_searched := config.topics
    opportunities := final
    total_x_signals := xRes.1.length
    total_reddit_signals := redditRes.1.length
    duplicates_filtered := dupPair.2
    below_threshold_filtered := below
    errors := errors }

/-- A stored opportunity row as read back by the duplicate check;
created_at is a Unix timestamp in seconds. -/
structure OpportunityRecord where
  primary_keyword : String
  created_at : ℤ
deriving DecidableEq, Repr

/-- A published-product row as read back by the duplicate check. -/
structure ProductRecord where
  title : String
deriving DecidableEq, Repr

/-- The opportunity store the duplicate check reads (spec section 6). -/
structure OpportunityStore where
  opportunities : List OpportunityRecord
  products : List ProductRecord
deriving DecidableEq, Repr

/-- Seconds in a day, for the lookback cutoff. -/
def secondsPerDay : ℤ := 86400

/-- DiscoveryAggregator._is_duplicate. The Supabase read is modelled by
its I/O contract (spec section 6): an eq filter on the lowercased keyword
plus a gte filter of created_at against the cutoff now minus
lookback_days (ISO-8601 string order is chronological order, modelled
with integer timestamps), then an ilike %keyword% filter on published
product titles (case-insensitive containment). Any lookup error is the
Except.error case and yields false: fail open. The title argument is
accepted and unused, as in the source. -/
def isDuplicate (db : Except String OpportunityStore) (now : ℤ)
    (keyword title : String) (lookback_days : ℤ) : Bool :=
  match db with
  | Except.error _ => false
  | Except.ok store =>
    let cutoff := now - lookback_days * secondsPerDay
    let sameKeyword := store.opportunities.filter
      (fun r => r.primary_keyword = pyLower keyword ∧ cutoff ≤ r.created_at)
    if sameKeyword ≠ [] then true
    else
      let titleMatches := store.products.filter
        (fun p => strContains (pyLower p.title) (pyLower keyword))
      if titleMatches ≠ [] then true else false

/-- trends_scout.py TrendData (interest_over_time entries are (date,
value) pairs). -/
structure TrendData where
  keyword : String
  interest_score : ℤ := 0
  interest_over_time : List (String × ℤ) := []
  related_queries : List String := []
  related_topics : List String := []
  rising_queries : List String := []
  region : String := "US"
  timeframe : String := "today 3-m"
deriving DecidableEq, Repr

/-- The mutable state of a TrendsScout: the keyword cache (key mapped to
data and the time.time() it was stored) and the global rate-limit
timestamp. Times are seconds as exact rationals. -/
structure TrendsState where
  cache : List (String × TrendData × ℚ) := []
  rate_limit_until : ℚ := 0
deriving DecidableEq, Repr

/-- The cache key of analyze_keyword. -/
def trendsCacheKey (keyword geo timeframe : String) : String :=
  pyLower keyword ++ ":" ++ geo ++ ":" ++ timeframe

/-- Dict lookup in the trends cache. -/
def cacheLookup (cache : List (String × TrendData × ℚ)) (k : String) :
    Option (TrendData × ℚ) :=
  (cache.find? (fun e => e.1 = k)).map (fun e => e.2)

/-- Dict assignment in the trends cache: overwrite in place or append. -/
def cacheInsert (cache : List (String × TrendData × ℚ)) (k : String)
    (v : TrendData × ℚ) : List (String × TrendData × ℚ) :=
  if (cache.find? (fun e => e.1 = k)).isSome then
    cache.map (fun e => if e.1 = k then (k, v) else e)
  else cache ++ [(k, v)]

/-- TrendsScout.CACHE_HOURS. -/
def CACHE_HOURS : ℚ := 6

/-- The part of analyze_keyword after the fresh-cache check: rate-limit
short-circuit (returning the stale cache entry or a default), availability
check, then the network fetch. fetchInterest is the oracle for what
get_interest_over_time returns for this keyword (already empty on timeout
or error), relatedQ and relatedT the (top, rising) oracles for the
full-analysis calls. The Bool of the result records whether the interest
fetch was attempted. -/
def analyzeKeywordMiss (avail : Bool) (st : TrendsState)
    (keyword geo timeframe : String) (full_analysis : Bool) (now : ℚ)
    (fetchInterest : List (String × ℤ))
    (relatedQ relatedT : List String × List String) :
    TrendData × TrendsState × Bool :=
  let key := trendsCacheKey keyword geo timeframe
  if now < st.rate_limit_until then
    (match cacheLookup st.cache key with
     | some (d, _) => (d, st, false)
     | none => ({ keyword := keyword, region := geo, timeframe := timeframe }, st, false))
  else if avail then
    let interest_list := fetchInterest
    let st1 := if interest_list = [] then { st with rate_limit_until := now + 60 } else st
    let avg : ℚ :=
      if interest_list = [] then 0
      else ((interest_list.map (fun p => (p.2 : ℚ))).sum) / (interest_list.length : ℚ)
    let rq := if full_analysis ∧ interest_list ≠ [] then relatedQ else ([], [])
    let rt := if full_analysis ∧ interest_list ≠ [] then relatedT else ([], [])
    let result : TrendData :=
      { keyword := keyword
        interest_score := ratTrunc avg
        interest_over_time := interest_list
        related_queries := rq.1
        rising_queries := rq.2
        related_topics := rt.1
        region := geo
        timeframe := timeframe }
    (result, { st1 with cache := cacheInsert st1.cache key (result, now) }, true)
  else ({ keyword := keyword, region := geo, timeframe := timeframe }, st, false)

/-- TrendsScout.analyze_keyword: return the cache entry while it is
younger than CACHE_HOURS, otherwise fall through to the rate-limit,
availability and fetch logic of analyzeKeywordMiss. -/
def analyzeKeyword (avail : Bool) (st : TrendsState)
    (keyword geo timeframe : String) (full_analysis : Bool) (now : ℚ)
    (fetchInterest : List (String × ℤ))
    (relatedQ relatedT : List String × List String) :
    TrendData × TrendsState × Bool :=
  match cacheLookup st.cache (trendsCacheKey keyword geo timeframe) with
  | some (d, t) =>
    if (now - t) / 3600 < CACHE_HOURS then (d, st, false)
    else analyzeKeywordMiss avail st keyword geo timeframe full_analysis now
      fetchInterest relatedQ relatedT
  | none => analyzeKeywordMiss avail st keyword geo timeframe full_analysis now
      fetchInterest relatedQ relatedT

theorem reviewedRatings_eq (ps : List GumroadProduct) :
    reviewedRatings ps
      = ps.filterMap (fun p => if 0 < p.review_count.getD 0 then p.rating else none) := by
  unfold reviewedRatings
  congr 1
  funext p
  rcases hr : p.rating with _ | r <;> rcases hn : p.review_count with _ | n <;>
      simp [hasReviews, hr, hn]
  by_cases h : 0 < n
  · simp [h, (show ¬ n = 0 by omega)]
  · simp [h]

theorem avgRatingOf_eq_spec (ps : List GumroadProduct) :
    avgRatingOf ps = specAvgRating ps := by
  unfold avgRatingOf specAvgRating
  rw [reviewedRatings_eq]

theorem competitionLevelPenalty_eq_spec (count : ℕ) (avg : Option ℚ) :
    competitionLevelPenalty count avg = specCompetitionRule count avg := by
  unfold competitionLevelPenalty specCompetitionRule
  rcases avg with _ | r
  · by_cases h0 : count = 0 <;> simp [h0]
  · by_cases h0 : count = 0
    · simp [h0]
    · have h0' : 0 < count := Nat.pos_of_ne_zero h0
      by_cases hl : r < 3.5
      · simp [h0, h0', hl]
      · by_cases hs : (4.5 : ℚ) < r
        · have hr0 : r ≠ 0 := ne_of_gt (lt_trans (by norm_num) hs)
          simp [h0, h0', hl, hs, hr0]
        · simp [h0, h0', hl, hs]

theorem scoreUnified_clamp (xs : List XSignal) (rs : List RedditSignal) (trend : ℤ)
    (pk : Option String) (comp : Option CompetitionData) :
    (scoreUnifiedSignals xs rs trend pk comp).opportunity_score
      = max 0 (min ((scoreUnifiedSignals xs rs trend pk comp).demand_score
          + (scoreUnifiedSignals xs rs trend pk comp).intent_score
          + (scoreUnifiedSignals xs rs trend pk comp).competition_penalty) 100) := by
  by_cases h : xs = [] ∧ rs = []
  · simp [scoreUnifiedSignals, h]
  · simp [scoreUnifiedSignals, h]

theorem xDemandTier_bounds (n : ℕ) : 0 ≤ xDemandTier n ∧ xDemandTier n ≤ 30 := by
  unfold xDemandTier
  split_ifs <;> omega

theorem redditDemandTier_bounds (n : ℕ) (eng : ℤ) :
    0 ≤ redditDemandTier n eng ∧ redditDemandTier n eng ≤ 10 := by
  unfold redditDemandTier
  split_ifs <;> omega

theorem trendTier_bounds (t : ℤ) : 0 ≤ trendTier t ∧ trendTier t ≤ 10 := by
  unfold trendTier
  split_ifs <;> omega

theorem demandScoreUnified_bounds (xs : List XSignal) (rs : List RedditSignal) (trend : ℤ) :
    0 ≤ demandScoreUnified xs rs trend ∧ demandScoreUnified xs rs trend ≤ 50 := by
  unfold demandScoreUnified
  have h1 := xDemandTier_bounds xs.length
  have h2 := redditDemandTier_bounds rs.length (redditEngagement rs)
  have h3 := trendTier_bounds trend
  constructor
  · apply le_min _ (by omega)
    split_ifs <;> omega
  · exact min_le_right _ _

theorem xIntent_bounds (xs : List XSignal) : 0 ≤ xIntent xs ∧ xIntent xs ≤ 25 := by
  unfold xIntent
  split_ifs <;> omega

theorem redditIntent_bounds (rs : List RedditSignal) :
    0 ≤ redditIntent rs ∧ redditIntent rs ≤ 10 := by
  unfold redditIntent
  dsimp only
  split_ifs <;> omega

theorem intentScoreUnified_bounds (xs : List XSignal) (rs : List RedditSignal) :
    0 ≤ intentScoreUnified xs rs ∧ intentScoreUnified xs rs ≤ 40 := by
  unfold intentScoreUnified
  have h1 := xIntent_bounds xs
  have h2 := redditIntent_bounds rs
  constructor
  · apply le_min _ (by omega)
    split_ifs <;> omega
  · exact min_le_right _ _

theorem competitionLevelPenalty_bounds (count : ℕ) (avg : Option ℚ) :
    -20 ≤ (competitionLevelPenalty count avg).2 ∧ (competitionLevelPenalty count avg).2 ≤ -3 := by
  unfold competitionLevelPenalty
  split_ifs <;> norm_num

theorem analyzeCompetition_penalty_bounds (k : String) (ps : List GumroadProduct) :
    -20 ≤ (analyzeCompetition k ps).competition_penalty
    ∧ (analyzeCompetition k ps).competition_penalty ≤ -3 := by
  have h := competitionLevelPenalty_bounds ps.length (avgRatingOf ps)
  simpa [analyzeCompetition] using h

/-- C10: with both signal lists empty, score_unified_signals returns the
fixed zero record: opportunity_score, demand_score, intent_score and
competition_penalty all 0, confidence low and suggested_price_cents 900,
regardless of the trend_score and competition_data arguments. -/
theorem C10_zero_signals_fixed_record :
    ∀ (trend : ℤ) (pk : Option String) (comp : Option CompetitionData),
      (scoreUnifiedSignals [] [] trend pk comp).opportunity_score = 0
      ∧ (scoreUnifiedSignals [] [] trend pk comp).demand_score = 0
      ∧ (scoreUnifiedSignals [] [] trend pk comp).intent_score = 0
      ∧ (scoreUnifiedSignals [] [] trend pk comp).competition_penalty = 0
      ∧ (scoreUnifiedSignals [] [] trend pk comp).confidence = "low"
      ∧ (scoreUnifiedSignals [] [] trend pk comp).suggested_price_cents = 900 := by
  intro trend pk comp
  simp [scoreUnifiedSignals]

theorem topicOpportunity_clamp (env : DiscoveryEnv) (config : DiscoveryConfig)
    (aX : List XSignal) (aR : List RedditSignal) (t : String) (opp : DiscoveredOpportunity)
    (h : topicOpportunity env config aX aR t = some opp) :
    opp.opportunity_score
      = max 0 (min (opp.demand_score + opp.intent_score + opp.competition_penalty) 100) := by
  simp only [topicOpportunity] at h
  split at h
  · split at h
    · exact absurd h (by simp)
    · rw [Option.some.injEq] at h
      subst h
      exact scoreUnified_clamp _ _ _ _ _
  · split at h
    · exact absurd h (by simp)
    · rw [Option.some.injEq] at h
      subst h
      exact scoreUnified_clamp _ _ _ _ _

theorem mem_runDiscovery_opportunities (env : DiscoveryEnv) (config : DiscoveryConfig)
    (opp : DiscoveredOpportunity) (h : opp ∈ (runDiscovery env config).opportunities) :
    ∃ t, topicOpportunity env config (discoveryXFetch env).1
      (discoveryRedditFetch env config).1 t = some opp := by
  simp only [runDiscovery] at h
  by_cases hc : config.check_duplicates <;> simp only [hc, if_true, if_false] at h
  · have h1 := List.take_subset _ _ h
    have h2 := (mem_sortKeyDesc _ _ _).mp h1
    have h3 := List.mem_of_mem_filter (List.mem_of_mem_filter h2)
    obtain ⟨t, _, hsome⟩ := List.mem_filterMap.mp h3
    exact ⟨t, hsome⟩
  · have h1 := List.take_subset _ _ h
    have h2 := (mem_sortKeyDesc _ _ _).mp h1
    have h3 := List.mem_of_mem_filter h2
    obtain ⟨t, _, hsome⟩ := List.mem_filterMap.mp h3
    exact ⟨t, hsome⟩

/-- C1: for every output of score_unified_signals and for every
DiscoveredOpportunity produced by run_discovery, opportunity_score is
exactly clamp(demand_score + intent_score + competition_penalty, 0, 100),
never computed independently of the three sub-scores. -/
theorem C1_opportunity_score_is_clamped_sum :
    (∀ (xs : List XSignal) (rs : List RedditSignal) (trend : ℤ) (pk : Option String)
        (comp : Option CompetitionData),
      (scoreUnifiedSignals xs rs trend pk comp).opportunity_score
        = max 0 (min ((scoreUnifiedSignals xs rs trend pk comp).demand_score
            + (scoreUnifiedSignals xs rs trend pk comp).intent_score
            + (scoreUnifiedSignals xs rs trend pk comp).competition_penalty) 100))
    ∧ (∀ (env : DiscoveryEnv) (config : DiscoveryConfig) (opp : DiscoveredOpportunity),
      opp ∈ (runDiscovery env config).opportunities →
      opp.opportunity_score
        = max 0 (min (opp.demand_score + opp.intent_score + opp.competition_penalty) 100)) := by
  constructor
  · exact scoreUnified_clamp
  · intro env config opp h
    obtain ⟨t, ht⟩ := mem_runDiscovery_opportunities env config opp h
    exact topicOpportunity_clamp _ _ _ _ _ _ ht

/-- A concrete one-signal environment used to instantiate theorems with
membership hypotheses: an X scout returning one signal, everything else
unavailable. -/
def wEnv : DiscoveryEnv :=
  { xConfigured := true
    xSearch := Except.ok
      [{ tweet_id := "t1", text := "ai tools", author_username := "u", url := "https://x.com/1" }]
    redditConfigured := false
    redditSearch := fun _ => Except.ok []
    trendsAvailable := false
    trendLookup := fun _ => Except.error "off"
    compLookup := fun _ => Except.error "off"
    isDup := fun _ _ => false }

/-- A configuration accepting every score, for the same concrete runs. -/
def wConfig : DiscoveryConfig := { topics := ["ai tools"], min_score := 0 }

/-- A throwaway default opportunity for head extraction. -/
def dfltOpp : DiscoveredOpportunity :=
  { title := "", description := "", target_audience := "", product_type := ""
    opportunity_score := 0, demand_score := 0, intent_score := 0, competition_penalty := 0
    confidence := "", primary_keyword := "", suggested_price_cents := 0 }

/-- The first opportunity of the concrete run. -/
def wOpp : DiscoveredOpportunity := ((runDiscovery wEnv wConfig).opportunities).headD dfltOpp

theorem C1_clamped_sum_witness :
    wOpp ∈ (runDiscovery wEnv wConfig).opportunities
    ∧ wOpp.opportunity_score
        = max 0 (min (wOpp.demand_score + wOpp.intent_score + wOpp.competition_penalty) 100) :=
  ⟨by decide, C1_opportunity_score_is_clamped_sum.2 wEnv wConfig wOpp (by decide)⟩

/-- C2 counterexample: at the empty signal set (which the claim includes),
score_unified_signals returns competition_penalty 0, which is not in
[-20, -3]. -/
theorem C2_counterexample_empty_penalty :
    ¬ (-20 ≤ (scoreUnifiedSignals [] [] 75 (some "k") none).competition_penalty
        ∧ (scoreUnifiedSignals [] [] 75 (some "k") none).competition_penalty ≤ -3) := by
  decide

/-- C2 (amended): for every signal set with at least one X or Reddit
signal, and any competition data whose penalty lies in [-20, -3] (as every
Competition Analyzer output and the -5 default do), the scorer output
satisfies 0 ≤ demand_score ≤ 50, 0 ≤ intent_score ≤ 40,
-20 ≤ competition_penalty ≤ -3 and 0 ≤ opportunity_score ≤ 100; in the
empty case all four values are 0 instead. -/
theorem C2_amended_score_bounds :
    ∀ (xs : List XSignal) (rs : List RedditSignal) (trend : ℤ) (pk : Option String)
      (comp : Option CompetitionData),
      (xs ≠ [] ∨ rs ≠ []) →
      (∀ c, comp = some c → -20 ≤ c.competition_penalty ∧ c.competition_penalty ≤ -3) →
      0 ≤ (scoreUnifiedSignals xs rs trend pk comp).demand_score
      ∧ (scoreUnifiedSignals xs rs trend pk comp).demand_score ≤ 50
      ∧ 0 ≤ (scoreUnifiedSignals xs rs trend pk comp).intent_score
      ∧ (scoreUnifiedSignals xs rs trend pk comp).intent_score ≤ 40
      ∧ -20 ≤ (scoreUnifiedSignals xs rs trend pk comp).competition_penalty
      ∧ (scoreUnifiedSignals xs rs trend pk comp).competition_penalty ≤ -3
      ∧ 0 ≤ (scoreUnifiedSignals xs rs trend pk comp).opportunity_score
      ∧ (scoreUnifiedSignals xs rs trend pk comp).opportunity_score ≤ 100 := by
  intro xs rs trend pk comp h1 h2
  have hcond : ¬ (xs = [] ∧ rs = []) := by tauto
  simp only [scoreUnifiedSignals, if_neg hcond]
  have hd := demandScoreUnified_bounds xs rs trend
  have hi := intentScoreUnified_bounds xs rs
  have hp : -20 ≤ (match comp with | some c => c.competition_penalty | none => (-5 : ℤ))
      ∧ (match comp with | some c => c.competition_penalty | none => (-5 : ℤ)) ≤ -3 := by
    cases comp with
    | none => norm_num
    | some c => exact h2 c rfl
  refine ⟨hd.1, hd.2, hi.1, hi.2, hp.1, hp.2, le_max_left _ _, ?_⟩
  exact max_le (by norm_num) (le_trans (min_le_right _ _) (by norm_num))

/-- Concrete competition data from the analyzer for the C2 witness:
one reviewed listing, a validated market. -/
def wC2Comp : CompetitionData :=
  analyzeCompetition "kw" [{ title := "p", rating := some 4, review_count := some 3, url := "" }]

/-- A minimal X signal for the C2 witness. -/
def wC2X : XSignal := { tweet_id := "t", text := "a", author_username := "u", url := "" }

theorem C2_score_bounds_witness :
    (([wC2X] : List XSignal) ≠ [] ∨ ([] : List RedditSignal) ≠ [])
    ∧ (0 ≤ (scoreUnifiedSignals [wC2X] [] 0 none (some wC2Comp)).demand_score
      ∧ (scoreUnifiedSignals [wC2X] [] 0 none (some wC2Comp)).demand_score ≤ 50
      ∧ 0 ≤ (scoreUnifiedSignals [wC2X] [] 0 none (some wC2Comp)).intent_score
      ∧ (scoreUnifiedSignals [wC2X] [] 0 none (some wC2Comp)).intent_score ≤ 40
      ∧ -20 ≤ (scoreUnifiedSignals [wC2X] [] 0 none (some wC2Comp)).competition_penalty
      ∧ (scoreUnifiedSignals [wC2X] [] 0 none (some wC2Comp)).competition_penalty ≤ -3
      ∧ 0 ≤ (scoreUnifiedSignals [wC2X] [] 0 none (some wC2Comp)).opportunity_score
      ∧ (scoreUnifiedSignals [wC2X] [] 0 none (some wC2Comp)).opportunity_score ≤ 100) :=
  ⟨Or.inl (by decide),
   C2_amended_score_bounds [wC2X] [] 0 none (some wC2Comp) (Or.inl (by decide))
     (fun c hc => by
       injection hc with h
       subst h
       exact analyzeCompetition_penalty_bounds "kw" _)⟩

/-- C3: the Competition Analyzer realizes exactly the five ordered
classification rules of the spec (first match wins) as a function of the
product count and the avg_rating; avg_rating is averaged only over
listings with review_count > 0 while every listing counts toward
product_count. In particular 8 unreviewed listings give saturated and
penalty -20, 0 listings give none and -10, and 3 listings with reviewed
avg_rating 4.8 give validated and -5. -/
theorem C3_competition_rule_order :
    (∀ (kw : String) (ps : List GumroadProduct),
      ((analyzeCompetition kw ps).competition_level,
          (analyzeCompetition kw ps).competition_penalty)
        = specCompetitionRule ps.length (specAvgRating ps)
      ∧ (analyzeCompetition kw ps).avg_rating = specAvgRating ps
      ∧ (analyzeCompetition kw ps).product_count = ps.length)
    ∧ ((analyzeCompetition "k" (List.replicate 8 { title := "p", url := "" })).competition_level
          = "saturated"
      ∧ (analyzeCompetition "k" (List.replicate 8 { title := "p", url := "" })).competition_penalty
          = -20)
    ∧ ((analyzeCompetition "k" []).competition_level = "none"
      ∧ (analyzeCompetition "k" []).competition_penalty = -10)
    ∧ ((analyzeCompetition "k"
          (List.replicate 3
            { title := "p", rating := some 4.8, review_count := some 20, url := "" })).competition_level
          = "validated"
      ∧ (analyzeCompetition "k"
          (List.replicate 3
            { title := "p", rating := some 4.8, review_count := some 20, url := "" })).competition_penalty
          = -5) := by
  refine ⟨?_, by decide, by decide, ?_⟩
  · intro kw ps
    have h := competitionLevelPenalty_eq_spec ps.length (avgRatingOf ps)
    have ha := avgRatingOf_eq_spec ps
    refine ⟨?_, ?_, rfl⟩
    · calc ((analyzeCompetition kw ps).competition_level,
            (analyzeCompetition kw ps).competition_penalty)
          = competitionLevelPenalty ps.length (avgRatingOf ps) := rfl
        _ = specCompetitionRule ps.length (avgRatingOf ps) := h
        _ = specCompetitionRule ps.length (specAvgRating ps) := by rw [ha]
    · show avgRatingOf ps = specAvgRating ps
      exact ha
  · have havg : avgRatingOf (List.replicate 3
        ({ title := "p", rating := some 4.8, review_count := some 20, url := "" } : GumroadProduct))
        = some 4.8 := by
      simp [avgRatingOf, reviewedRatings, hasReviews, List.replicate]
      norm_num
    have hlp : competitionLevelPenalty 3 (some (4.8 : ℚ)) = ("validated", -5) := by
      unfold competitionLevelPenalty
      norm_num
    constructor
    · show (competitionLevelPenalty (List.replicate 3
          ({ title := "p", rating := some 4.8, review_count := some 20, url := "" } : GumroadProduct)).length
          (avgRatingOf (List.replicate 3
            ({ title := "p", rating := some 4.8, review_count := some 20, url := "" } : GumroadProduct)))).1
          = "validated"
      rw [List.length_replicate, havg, hlp]
    · show (competitionLevelPenalty (List.replicate 3
          ({ title := "p", rating := some 4.8, review_count := some 20, url := "" } : GumroadProduct)).length
          (avgRatingOf (List.replicate 3
            ({ title := "p", rating := some 4.8, review_count := some 20, url := "" } : GumroadProduct)))).2
          = -5
      rw [List.length_replicate, havg, hlp]

/-- The repeated plain X signal of the C7 scenario. -/
def c7Sig : XSignal := { tweet_id := "t", text := "a", author_username := "u", url := "" }

/-- Twelve X signals carrying six buying signals and three pain points in
total. -/
def c7XSignals : List XSignal :=
  { c7Sig with
    buying_signals := ["b1", "b2", "b3", "b4", "b5", "b6"]
    pain_points := ["q1", "q2", "q3"] } :: List.replicate 11 c7Sig

/-- Two marketplace listings with reviewed rating 4.0 each. -/
def c7Products : List GumroadProduct :=
  [{ title := "p1", rating := some 4, review_count := some 10, url := "" },
   { title := "p2", rating := some 4, review_count := some 5, url := "" }]

/-- Competition data from the analyzer for the two listings. -/
def c7Comp : CompetitionData := analyzeCompetition "chatgpt prompts" c7Products

/-- The scorer reads competition data only through its penalty field, so
two data with equal penalty yield identical scores. -/
theorem scoreUnified_some_comp (xs : List XSignal) (rs : List RedditSignal) (trend : ℤ)
    (pk : Option String) (c c' : CompetitionData)
    (h : c.competition_penalty = c'.competition_penalty) :
    scoreUnifiedSignals xs rs trend pk (some c) = scoreUnifiedSignals xs rs trend pk (some c') := by
  unfold scoreUnifiedSignals
  dsimp only
  rw [h]

/-- C7: the end-to-end scenario of the spec. Twelve X signals with six
buying signals and three pain points, trend_score 75 and a 2-listing
validated market give demand 32 (22 from the signal-count tier plus 10
from the trend tier), intent 14 (10 buying plus 4 pain), penalty -5,
opportunity_score 41 and confidence low (12 signals but score below
50). -/
theorem C7_end_to_end_scenario :
    c7XSignals.length = 12
    ∧ xBuyingCount c7XSignals = 6
    ∧ xPainCount c7XSignals = 3
    ∧ xDemandTier 12 = 22
    ∧ trendTier 75 = 10
    ∧ xIntent c7XSignals = 14
    ∧ c7Comp.competition_level = "validated"
    ∧ (scoreUnifiedSignals c7XSignals [] 75 (some "chatgpt prompts") (some c7Comp)).demand_score
        = 32
    ∧ (scoreUnifiedSignals c7XSignals [] 75 (some "chatgpt prompts") (some c7Comp)).intent_score
        = 14
    ∧ (scoreUnifiedSignals c7XSignals [] 75 (some "chatgpt prompts")
        (some c7Comp)).competition_penalty = -5
    ∧ (scoreUnifiedSignals c7XSignals [] 75 (some "chatgpt prompts")
        (some c7Comp)).opportunity_score = 41
    ∧ (scoreUnifiedSignals c7XSignals [] 75 (some "chatgpt prompts") (some c7Comp)).confidence
        = "low" := by
  have hrr : reviewedRatings c7Products = [4, 4] := by decide
  have havg : avgRatingOf c7Products = some 4 := by
    unfold avgRatingOf
    rw [hrr]
    norm_num
  have hlp : competitionLevelPenalty 2 (some (4 : ℚ)) = ("validated", -5) := by
    unfold competitionLevelPenalty
    norm_num
  have hlen : c7Products.length = 2 := rfl
  have hlev : c7Comp.competition_level = "validated" := by
    show (competitionLevelPenalty c7Products.length (avgRatingOf c7Products)).1 = "validated"
    rw [hlen, havg, hlp]
  have hpen : c7Comp.competition_penalty = -5 := by
    show (competitionLevelPenalty c7Products.length (avgRatingOf c7Products)).2 = -5
    rw [hlen, havg, hlp]
  have hsimple : scoreUnifiedSignals c7XSignals [] 75 (some "chatgpt prompts") (some c7Comp)
      = scoreUnifiedSignals c7XSignals [] 75 (some "chatgpt prompts")
        (some { keyword := "chatgpt prompts", product_count := 2,
                competition_level := "validated", competition_penalty := -5 }) :=
    scoreUnified_some_comp _ _ _ _ _ _ (by rw [hpen])
  rw [hsimple, hlev]
  decide

/-- Five X signals carrying URLs. -/
def c8Xs : List XSignal :=
  List.replicate 5 { tweet_id := "t", text := "a", author_username := "u", url := "https://x.com/p" }

/-- Three Reddit signals carrying URLs. -/
def c8Rs : List RedditSignal :=
  List.replicate 3 { subreddit := "s", post_id := "i", post_title := "t", post_url := "https://r.com/p" }

/-- C8 counterexample: with five X signals and three Reddit signals all
carrying URLs, evidence_urls has 8 entries, refuting the claimed cap of
5. -/
theorem C8_counterexample_eight_urls :
    (scoreUnifiedSignals c8Xs c8Rs 0 (some "k") none).evidence_urls.length = 8
    ∧ ¬ ((scoreUnifiedSignals c8Xs c8Rs 0 (some "k") none).evidence_urls.length ≤ 5) := by
  decide

/-- C8 (amended): for every scored opportunity, evidence_urls is exactly
the non-empty urls of the first five X signals followed by the non-empty
post_urls of the first three Reddit signals, in that order - hence at
most 8 URLs in total (at most 5 from X plus at most 3 from Reddit), with
no relevance ranking applied. -/
theorem C8_amended_evidence_urls :
    ∀ (xs : List XSignal) (rs : List RedditSignal) (trend : ℤ) (pk : Option String)
      (comp : Option CompetitionData),
      (scoreUnifiedSignals xs rs trend pk comp).evidence_urls = evidenceUrlsUnified xs rs
      ∧ (scoreUnifiedSignals xs rs trend pk comp).evidence_urls.length ≤ 8 := by
  intro xs rs trend pk comp
  have he : (scoreUnifiedSignals xs rs trend pk comp).evidence_urls = evidenceUrlsUnified xs rs := by
    by_cases h : xs = [] ∧ rs = []
    · obtain ⟨h1, h2⟩ := h
      subst h1
      subst h2
      simp [scoreUnifiedSignals, evidenceUrlsUnified]
    · simp [scoreUnifiedSignals, h]
  refine ⟨he, ?_⟩
  rw [he]
  unfold evidenceUrlsUnified
  rw [List.length_append]
  have l1 := List.length_filterMap_le
    (fun s : XSignal => if s.url ≠ "" then some s.url else none) (xs.take 5)
  have l2 := List.length_filterMap_le
    (fun s : RedditSignal => if s.post_url ≠ "" then some s.post_url else none) (rs.take 3)
  have t1 : (xs.take 5).length ≤ 5 := by
    rw [List.length_take]
    omega
  have t2 : (rs.take 3).length ≤ 3 := by
    rw [List.length_take]
    omega
  omega

/-- C4: the returned opportunities are exactly the truncation to
max_opportunities of the stable score-descending sort of the duplicate
survivors of the min_score filter of the per-topic scored list;
below_threshold_filtered counts the scored opportunities below min_score;
consequently the result is score-descending, has length at most
max_opportunities, and every element scores at least min_score. -/
theorem C4_filter_sequence :
    ∀ (env : DiscoveryEnv) (config : DiscoveryConfig),
      (runDiscovery env config).opportunities
        = (sortKeyDesc (fun o => o.opportunity_score)
            (if config.check_duplicates then
              ((scoredOpportunities env config).filter
                (fun o => config.min_score ≤ o.opportunity_score)).filter
                (fun o => ¬ env.isDup o.primary_keyword o.title)
             else (scoredOpportunities env config).filter
                (fun o => config.min_score ≤ o.opportunity_score))).take config.max_opportunities
      ∧ (runDiscovery env config).below_threshold_filtered
          = ((scoredOpportunities env config).filter
              (fun o => o.opportunity_score < config.min_score)).length
      ∧ (runDiscovery env config).opportunities.Pairwise
          (fun a b => b.opportunity_score ≤ a.opportunity_score)
      ∧ (runDiscovery env config).opportunities.length ≤ config.max_opportunities
      ∧ ((runDiscovery env config).opportunities.all
          (fun o => config.min_score ≤ o.opportunity_score)) = true := by
  intro env config
  have hmain : (runDiscovery env config).opportunities
      = (sortKeyDesc (fun o => o.opportunity_score)
          (if config.check_duplicates then
            ((scoredOpportunities env config).filter
              (fun o => config.min_score ≤ o.opportunity_score)).filter
              (fun o => ¬ env.isDup o.primary_keyword o.title)
           else (scoredOpportunities env config).filter
              (fun o => config.min_score ≤ o.opportunity_score))).take config.max_opportunities := by
    by_cases hc : config.check_duplicates <;> simp [runDiscovery, hc]
  refine ⟨hmain, rfl, ?_, ?_, ?_⟩
  · rw [hmain]
    exact List.Pairwise.sublist (List.take_sublist _ _) (pairwise_sortKeyDesc _ _)
  · rw [hmain]
    exact List.length_take_le _ _
  · rw [hmain, List.all_eq_true]
    intro o ho
    have h1 := List.take_subset _ _ ho
    have h2 := (mem_sortKeyDesc _ _ _).mp h1
    by_cases hc : config.check_duplicates <;> simp only [hc, if_true, if_false] at h2
    · have h3 := List.mem_of_mem_filter h2
      have h4 := List.of_mem_filter h3
      simpa using h4
    · have h4 := List.of_mem_filter h2
      simpa using h4

/-- A fully unconfigured environment: X and Reddit scouts unconfigured,
trends and competition unavailable. -/
def c6Env : DiscoveryEnv :=
  { xConfigured := false
    xSearch := Except.ok []
    redditConfigured := false
    redditSearch := fun _ => Except.ok []
    trendsAvailable := false
    trendLookup := fun _ => Except.error "off"
    compLookup := fun _ => Except.error "off"
    isDup := fun _ _ => false }

/-- C6 counterexample: with every source adapter unconfigured, the run
returns success = false (the claim says true, and the success rule gives
false because errors is non-empty and nothing survived), and errors has a
single entry although two sources are unconfigured (an unconfigured
Reddit scout is skipped without an error entry). -/
theorem C6_counterexample_unconfigured_run :
    (runDiscovery c6Env {}).success = false
    ∧ (runDiscovery c6Env {}).errors.length = 1 := by
  decide

theorem topicOpportunity_empty_pools (env : DiscoveryEnv) (config : DiscoveryConfig)
    (t : String) : topicOpportunity env config [] [] t = none := by
  simp [topicOpportunity]

/-- C6 (amended): a discovery run in which every source adapter is
unconfigured returns success = false (consistent with the success rule:
no opportunity survived and errors is non-empty), an empty opportunities
list, errors containing exactly one entry - the X-not-configured message;
an unconfigured Reddit source adds no error entry - and
below_threshold_filtered = 0. -/
theorem C6_amended_unconfigured_run :
    ∀ (xS : Except String (List XSignal)) (rS : String → Except String (List RedditSignal))
      (tA : Bool) (tL : String → Except String ℤ)
      (cL : String → Except String CompetitionData) (dup : String → String → Bool)
      (config : DiscoveryConfig),
      (runDiscovery ⟨false, xS, false, rS, tA, tL, cL, dup⟩ config).success = false
      ∧ (runDiscovery ⟨false, xS, false, rS, tA, tL, cL, dup⟩ config).opportunities = []
      ∧ (runDiscovery ⟨false, xS, false, rS, tA, tL, cL, dup⟩ config).errors
          = ["X/Grok not configured (XAI_API_KEY missing)"]
      ∧ (runDiscovery ⟨false, xS, false, rS, tA, tL, cL, dup⟩ config).below_threshold_filtered
          = 0 := by
  intro xS rS tA tL cL dup config
  have hS : scoredOpportunities ⟨false, xS, false, rS, tA, tL, cL, dup⟩ config = [] := by
    unfold scoredOpportunities
    rw [List.filterMap_eq_nil]
    intro t _
    exact topicOpportunity_empty_pools _ _ t
  refine ⟨?_, ?_, ?_, ?_⟩ <;>
    simp [runDiscovery, hS, discoveryXFetch, discoveryRedditFetch, sortKeyDesc]

/-- A store holding one record with the exact keyword, created 10 days
before the reference time 0. -/
def c5Store10 : OpportunityStore :=
  { opportunities := [{ primary_keyword := "chatgpt prompts", created_at := -10 * 86400 }]
    products := [] }

/-- The same store but with the record created 91 days before time 0. -/
def c5Store91 : OpportunityStore :=
  { opportunities := [{ primary_keyword := "chatgpt prompts", created_at := -91 * 86400 }]
    products := [] }

/-- C5: an opportunity is a duplicate if and only if a stored record
carries the exact lowercased keyword and was created within
lookback_days, or some published-product title contains the keyword
case-insensitively (no time limit); a failed lookup is never a duplicate
(fail open). With lookback_days = 90, a record 10 days old suppresses
and one 91 days old does not. -/
theorem C5_duplicate_characterisation :
    (∀ (store : OpportunityStore) (now : ℤ) (kw t : String) (days : ℤ),
      isDuplicate (Except.ok store) now kw t days = true
        ↔ ((∃ r ∈ store.opportunities,
              r.primary_keyword = pyLower kw ∧ now - days * secondsPerDay ≤ r.created_at)
           ∨ (∃ p ∈ store.products, strContains (pyLower p.title) (pyLower kw) = true)))
    ∧ (∀ (e : String) (now : ℤ) (kw t : String) (days : ℤ),
        isDuplicate (Except.error e) now kw t days = false)
    ∧ isDuplicate (Except.ok c5Store10) 0 "chatgpt prompts" "Chatgpt Prompts Pack" 90 = true
    ∧ isDuplicate (Except.ok c5Store91) 0 "chatgpt prompts" "Chatgpt Prompts Pack" 90 = false := by
  refine ⟨?_, fun _ _ _ _ _ => rfl, by decide, by decide⟩
  intro store now kw t days
  unfold isDuplicate
  dsimp only
  split_ifs with h1 h2
  · simp only [true_iff]
    left
    obtain ⟨r, hr⟩ := List.exists_mem_of_ne_nil _ h1
    have hm := List.mem_filter.mp hr
    exact ⟨r, hm.1, by simpa using hm.2⟩
  · simp only [true_iff]
    right
    obtain ⟨p, hp⟩ := List.exists_mem_of_ne_nil _ h2
    have hm := List.mem_filter.mp hp
    exact ⟨p, hm.1, hm.2⟩
  · simp only [false_iff]
    rw [not_not] at h1 h2
    rintro (⟨r, hr, hpk, hct⟩ | ⟨p, hp, hc⟩)
    · have hmem : r ∈ store.opportunities.filter
          (fun r => decide (r.primary_keyword = pyLower kw
            ∧ now - days * secondsPerDay ≤ r.created_at)) :=
        List.mem_filter.mpr ⟨hr, by simp [hpk, hct]⟩
      rw [h1] at hmem
      exact absurd hmem (List.not_mem_nil r)
    · have hmem : p ∈ store.products.filter
          (fun p => strContains (pyLower p.title) (pyLower kw)) :=
        List.mem_filter.mpr ⟨hp, hc⟩
      rw [h2] at hmem
      exact absurd hmem (List.not_mem_nil p)

/-- C9: a trend value cached for a keyword (and region and timeframe) at
time T is returned unchanged, with no fetch, by any lookup at T+5h59m
(21540 s); a lookup at T+6h01m (21660 s) treats the entry as expired and
falls through to the miss path, where - provided the scout is available
and not inside a rate-limit cool-down - a re-fetch is attempted. -/
theorem C9_trend_cache_ttl :
    ∀ (avail : Bool) (st : TrendsState) (kw geo tf : String) (fa : Bool) (T : ℚ)
      (fi : List (String × ℤ)) (rq rt : List String × List String) (d : TrendData),
      cacheLookup st.cache (trendsCacheKey kw geo tf) = some (d, T) →
      (analyzeKeyword avail st kw geo tf fa (T + 21540) fi rq rt = (d, st, false))
      ∧ (analyzeKeyword avail st kw geo tf fa (T + 21660) fi rq rt
          = analyzeKeywordMiss avail st kw geo tf fa (T + 21660) fi rq rt)
      ∧ (st.rate_limit_until ≤ T + 21660 → avail = true →
          (analyzeKeyword avail st kw geo tf fa (T + 21660) fi rq rt).2.2 = true) := by
  intro avail st kw geo tf fa T fi rq rt d h
  have hfresh : (T + 21540 - T) / 3600 < CACHE_HOURS := by
    have he : (T + 21540 - T) = 21540 := by ring
    rw [he, CACHE_HOURS.eq_1]
    norm_num
  have hstale : ¬ ((T + 21660 - T) / 3600 < CACHE_HOURS) := by
    have he : (T + 21660 - T) = 21660 := by ring
    rw [he, CACHE_HOURS.eq_1]
    norm_num
  have hmiss : analyzeKeyword avail st kw geo tf fa (T + 21660) fi rq rt
      = analyzeKeywordMiss avail st kw geo tf fa (T + 21660) fi rq rt := by
    unfold analyzeKeyword
    rw [h]
    dsimp only
    rw [if_neg hstale]
  refine ⟨?_, hmiss, ?_⟩
  · unfold analyzeKeyword
    rw [h]
    dsimp only
    rw [if_pos hfresh]
  · intro hrl ha
    subst ha
    rw [hmiss]
    unfold analyzeKeywordMiss
    rw [if_neg (not_lt.mpr hrl)]
    simp

/-- A cached trend value for the C9 witness. -/
def c9Data : TrendData := { keyword := "k", interest_score := 42 }

/-- A trends state whose cache holds c9Data stored at time 0. -/
def c9State : TrendsState :=
  { cache := [(trendsCacheKey "k" "US" "today 3-m", c9Data, 0)], rate_limit_until := 0 }

theorem C9_trend_cache_ttl_witness :
    cacheLookup c9State.cache (trendsCacheKey "k" "US" "today 3-m") = some (c9Data, 0)
    ∧ analyzeKeyword true c9State "k" "US" "today 3-m" false ((0 : ℚ) + 21540) []
        ([], []) ([], []) = (c9Data, c9State, false)
    ∧ (analyzeKeyword true c9State "k" "US" "today 3-m" false ((0 : ℚ) + 21660) []
        ([], []) ([], [])).2.2 = true :=
  ⟨rfl,
   (C9_trend_cache_ttl true c9State "k" "US" "today 3-m" false 0 [] ([], []) ([], [])
      c9Data rfl).1,
   (C9_trend_cache_ttl true c9State "k" "US" "today 3-m" false 0 [] ([], []) ([], [])
      c9Data rfl).2.2 (by norm_num [c9State]) rfl⟩

end HeadlessStudio
